import Mathlib

/-!
Shallow embedding of the lead-generation core of the `warroom` backend
(`backend/app/services/leadgen/*` and `backend/app/api/leadgen.py`),
together with theorems settling the behavioural claims about it.

Machine integers are modelled as `Nat`/`Int` (no overflow is reachable in the
Python source), SQL rows as Lean structures, nullable columns as `Option`,
and the async orchestration as explicit state passing (plus a small labelled
transition system for the semaphore discipline).
-/

/-! ## Python truthiness and small string helpers -/

/-- Truthiness of a Python `Optional[str]`: both `None` and `""` are falsy. -/
def optStrTruthy : Option String → Bool
  | none => false
  | some s => s != ""

/-- Truthiness of a Python `Optional[int]`: both `None` and `0` are falsy. -/
def optNatTruthy : Option Nat → Bool
  | none => false
  | some n => n != 0

/-- Python `s.startswith(p)`, computed on the underlying character lists so
that it reduces inside the kernel. -/
def pyStartsWith (p s : String) : Bool :=
  List.isPrefixOf p.data s.data

/-- Python `s.lower()`, computed on the underlying character lists. -/
def pyLower (s : String) : String :=
  String.mk (s.data.map Char.toLower)

/-! ## Data model

Embeds `backend/app/models/lead.py` (`SearchJob`, `Lead`) with exactly the
mapped columns of that file.  Timestamps are seconds as `Nat`.

The API layer also touches attributes that are NOT columns of this model
(`website_phones`, `audit_lite_flags`, `contact_outcome` and the other
`contact_*` names) although `leadgen_schemas.py` declares them: assigning
one on an instance is a plain Python attribute write that is silently
dropped at commit, while reading one on a freshly loaded instance or on the
`Lead` class raises `AttributeError`.  The embeddings below model both
effects where they occur. -/

structure SearchJob where
  id : Nat
  query : String := ""
  location : String := ""
  radius_km : Nat := 25
  status : String := "pending"
  total_found : Nat := 0
  enriched_count : Nat := 0
  error_message : Option String := none
deriving DecidableEq, Repr

structure Lead where
  id : Nat
  search_job_id : Option Nat := none
  google_place_id : Option String := none
  business_name : String := ""
  phone : Option String := none
  website : Option String := none
  google_rating : Option ℚ := none
  google_reviews_count : Option Nat := none
  business_category : Option String := none
  emails : List String := []
  facebook_url : Option String := none
  instagram_url : Option String := none
  linkedin_url : Option String := none
  twitter_url : Option String := none
  tiktok_url : Option String := none
  youtube_url : Option String := none
  yelp_url : Option String := none
  has_website : Bool := false
  website_status : Option Int := none
  website_platform : Option String := none
  website_audit_score : Option Int := none
  website_audit_grade : Option String := none
  website_audit_summary : Option String := none
  website_audit_top_fixes : List String := []
  website_audit_date : Option Nat := none
  enrichment_status : String := "pending"
  audit_status : String := "pending"
  outreach_status : String := "none"
  lead_score : Nat := 0
  lead_tier : String := "unscored"
deriving DecidableEq, Repr

/-! ## Lead scorer

Embeds `backend/app/services/leadgen/lead_scorer.py`. -/

/-- The `SCORING_RULES` weight table of `lead_scorer.py`. -/
def SCORING_RULES : String → Nat
  | "no_website" => 25
  | "bad_website_score" => 20
  | "mediocre_website" => 10
  | "has_email" => 10
  | "has_phone" => 5
  | "high_google_rating" => 5
  | "many_reviews" => 5
  | "has_socials" => 5
  | "old_platform" => 15
  | _ => 0

/-- The `UPGRADE_PLATFORMS` set of `lead_scorer.py`. -/
def UPGRADE_PLATFORMS : List String := ["wix", "weebly", "godaddy", "squarespace"]

/-- Tier thresholds of `score_lead` (lead_scorer.py lines 57-65). -/
def tier_of (score : Nat) : String :=
  if 60 ≤ score then "hot"
  else if 35 ≤ score then "warm"
  else if 15 ≤ score then "cold"
  else "unscored"

/-- Embeds `score_lead` (lead_scorer.py lines 21-67): each `let` mirrors one
`score += ...` statement; the truthiness tests mirror the Python conditions,
including `lead.google_rating and float(lead.google_rating) >= 4.0` (a zero
rating is falsy) and `lead.google_reviews_count and ... >= 50`. -/
def score_lead (lead : Lead) : Nat × String :=
  let score : Nat := 0
  let score := score +
    (if !lead.has_website || !(optStrTruthy lead.website) then SCORING_RULES "no_website"
     else
       match lead.website_audit_score with
       | some s =>
           if s < 60 then SCORING_RULES "bad_website_score"
           else if s < 75 then SCORING_RULES "mediocre_website"
           else 0
       | none => 0)
  let score := score + (if lead.emails != [] then SCORING_RULES "has_email" else 0)
  let score := score + (if optStrTruthy lead.phone then SCORING_RULES "has_phone" else 0)
  let score := score +
    (match lead.google_rating with
     | some r => if r ≠ 0 ∧ 4 ≤ r then SCORING_RULES "high_google_rating" else 0
     | none => 0)
  let score := score +
    (match lead.google_reviews_count with
     | some n => if n ≠ 0 ∧ 50 ≤ n then SCORING_RULES "many_reviews" else 0
     | none => 0)
  let social_count :=
    List.countP optStrTruthy
      [lead.facebook_url, lead.instagram_url, lead.linkedin_url, lead.twitter_url]
  let score := score + (if 2 ≤ social_count then SCORING_RULES "has_socials" else 0)
  let score := score +
    (match lead.website_platform with
     | some p =>
         if p != "" && UPGRADE_PLATFORMS.contains (pyLower p) then SCORING_RULES "old_platform"
         else 0
     | none => 0)
  let tier := tier_of score
  (score, tier)

/-- Rubric of C2, written as one arithmetic sum following the wording of the
specification (weights and tier thresholds spelled out), to be compared with
the accumulator-style `score_lead` from the source. -/
def score_lead_rubric (lead : Lead) : Nat × String :=
  let website_points : Nat :=
    if !lead.has_website || !(optStrTruthy lead.website) then 25
    else
      match lead.website_audit_score with
      | some s => if s < 60 then 20 else if s < 75 then 10 else 0
      | none => 0
  let rating_points : Nat :=
    match lead.google_rating with
    | some r => if r ≠ 0 ∧ 4 ≤ r then 5 else 0
    | none => 0
  let review_points : Nat :=
    match lead.google_reviews_count with
    | some n => if n ≠ 0 ∧ 50 ≤ n then 5 else 0
    | none => 0
  let social_points : Nat :=
    if 2 ≤ List.countP optStrTruthy
        [lead.facebook_url, lead.instagram_url, lead.linkedin_url, lead.twitter_url] then 5
    else 0
  let platform_points : Nat :=
    match lead.website_platform with
    | some p => if p != "" && UPGRADE_PLATFORMS.contains (pyLower p) then 15 else 0
    | none => 0
  let score := website_points
    + (if lead.emails != [] then 10 else 0)
    + (if optStrTruthy lead.phone then 5 else 0)
    + rating_points + review_points + social_points + platform_points
  (score, tier_of score)

/-- The rating 4.2 of the specification's worked example, given with an
explicit numerator and denominator so that it evaluates inside the kernel. -/
def ratFourPointTwo : ℚ := ⟨21, 5, by norm_num, by norm_num⟩

/-- Worked example of the specification: no website, two extracted emails, a
phone, Google rating 4.2, 80 reviews, and two social URLs. -/
def exampleWarmLead : Lead :=
  { id := 1
    business_name := "Example Plumbing"
    phone := some "(208) 555-0101"
    website := none
    has_website := false
    google_rating := some ratFourPointTwo
    google_reviews_count := some 80
    emails := ["info@exampleplumbing.com", "owner@exampleplumbing.com"]
    facebook_url := some "https://facebook.com/exampleplumbing"
    instagram_url := some "https://instagram.com/exampleplumbing" }
/-! ## Website auditor

Embeds the scoring part of `backend/app/services/leadgen/website_auditor.py`:
the `WebsiteAudit` dataclass and the pure functions `_calculate_audit_score`
and `_score_to_grade`.  The signal-extraction fields are populated by
`audit_website` only on an HTTP 200 response; `has_ssl` is
`urlparse(url).scheme == "https"`. -/

structure WebsiteAudit where
  url : String
  score : Nat := 0
  grade : String := "F"
  summary : String := ""
  top_fixes : List String := []
  has_ssl : Bool := false
  has_email : Bool := false
  has_phone : Bool := false
  has_meta_description : Bool := false
  has_viewport : Bool := false
  has_socials : Nat := 0
  page_title_length : Nat := 0
  meta_description_length : Nat := 0
deriving DecidableEq, Repr

/-- Embeds `_calculate_audit_score` (website_auditor.py lines 108-139).  Each
`let` mirrors one conditional `score += ...`; the cap is `min(score, 100)`. -/
def calculate_audit_score (audit : WebsiteAudit) : Nat :=
  let score : Nat := 0
  let score := score + (if audit.has_ssl then 25 else 0)
  let score := score + (if audit.has_email then 20 else 0)
  let score := score + (if audit.has_phone then 15 else 0)
  let score := score +
    (if audit.has_meta_description then
       10 + (if 120 ≤ audit.meta_description_length ∧ audit.meta_description_length ≤ 160
             then 5 else 0)
     else 0)
  let score := score +
    (if 30 ≤ audit.page_title_length ∧ audit.page_title_length ≤ 60 then 10 else 0)
  let score := score + (if audit.has_viewport then 10 else 0)
  let score := score + (if 2 ≤ audit.has_socials then 5 else 0)
  min score 100

/-- Embeds `_score_to_grade` (website_auditor.py lines 142-153). -/
def score_to_grade (score : Nat) : String :=
  if 90 ≤ score then "A"
  else if 80 ≤ score then "B"
  else if 70 ≤ score then "C"
  else if 60 ≤ score then "D"
  else "F"

/-- Rubric of C3, written as one capped arithmetic sum following the wording
of the specification, to be compared with the accumulator-style
`calculate_audit_score` from the source. -/
def audit_score_rubric (audit : WebsiteAudit) : Nat :=
  min ((if audit.has_ssl then 25 else 0)
    + (if audit.has_email then 20 else 0)
    + (if audit.has_phone then 15 else 0)
    + (if audit.has_meta_description then
         10 + (if 120 ≤ audit.meta_description_length ∧ audit.meta_description_length ≤ 160
               then 5 else 0)
       else 0)
    + (if 30 ≤ audit.page_title_length ∧ audit.page_title_length ≤ 60 then 10 else 0)
    + (if audit.has_viewport then 10 else 0)
    + (if 2 ≤ audit.has_socials then 5 else 0)) 100

/-- Worked audit example of the specification: HTTPS, a visible phone, no
email, no meta description, no viewport, exactly one social link, and no
page title (`page_title_length` keeps the dataclass default 0). -/
def exampleAuditPage : WebsiteAudit :=
  { url := "https://example-biz.com"
    has_ssl := true
    has_phone := true
    has_socials := 1 }

/-! ## Contact extractor: email cleaning

Embeds `_clean_emails` of `backend/app/services/leadgen/website_crawler.py`
(lines 78-88).  Python strings are modelled as their character lists so that
`split`, `lower` and substring tests reduce inside the kernel. -/

/-- Helper for `splitOnChar`: accumulates the current chunk in reverse. -/
def splitOnCharAux (sep : Char) : List Char → List Char → List (List Char)
  | acc, [] => [acc.reverse]
  | acc, c :: cs =>
      if c == sep then acc.reverse :: splitOnCharAux sep [] cs
      else splitOnCharAux sep (c :: acc) cs

/-- Python `s.split(sep)` for a one-character separator. -/
def splitOnChar (sep : Char) (s : List Char) : List (List Char) :=
  splitOnCharAux sep [] s

/-- Python `s.lower()` on a character list. -/
def lowerChars (s : List Char) : List Char := s.map Char.toLower

/-- Python `pat in s` substring containment on character lists. -/
def containsSub : List Char → List Char → Bool
  | [], pat => pat.isEmpty
  | c :: cs, pat => List.isPrefixOf pat (c :: cs) || containsSub cs pat

/-- Lexicographic comparison on character lists: Python's string ordering,
used to model `sorted(...)`. -/
def charListLeB : List Char → List Char → Bool
  | [], _ => true
  | _ :: _, [] => false
  | a :: as, b :: bs => if a < b then true else if a == b then charListLeB as bs else false

/-- The `JUNK_EMAIL_DOMAINS` denylist of website_crawler.py lines 29-32. -/
def JUNK_EMAIL_DOMAINS : List (List Char) :=
  ["example.com".data, "sentry.io".data, "wixpress.com".data, "googleapis.com".data,
   "w3.org".data, "schema.org".data, "gravatar.com".data, "wordpress.org".data]

/-- The static-asset extensions tested by `_clean_emails` line 85. -/
def ASSET_EXTENSIONS : List (List Char) :=
  [".png".data, ".jpg".data, ".gif".data, ".svg".data, ".js".data, ".css".data]

/-- Python `email.split("@")[1].lower()` (website_crawler.py line 82): the
part of the address after the first `@`, lower-cased. -/
def emailDomain (email : List Char) : List Char :=
  lowerChars ((splitOnChar '@' email).getD 1 [])

/-- The part of an address before the first `@` (Python `email.split("@")[0]`),
used to state what the specification says about local parts. -/
def emailLocalPart (email : List Char) : List Char :=
  (splitOnChar '@' email).getD 0 []

/-- The filter condition of `_clean_emails` lines 82-86: drop the address when
its domain is in the denylist or contains a static-asset extension. -/
def keepEmail (email : List Char) : Bool :=
  let domain := emailDomain email
  !(JUNK_EMAIL_DOMAINS.contains domain)
    && !(ASSET_EXTENSIONS.any (fun ext => containsSub domain ext))

/-- Embeds `_clean_emails` (website_crawler.py lines 78-88): filter, lower,
then `sorted(set(...))` modelled as dedup followed by an insertion sort under
the string order. -/
def clean_emails (raw_emails : List (List Char)) : List (List Char) :=
  let cleaned := (raw_emails.filter keepEmail).map lowerChars
  List.insertionSort (fun a b => charListLeB a b = true) cleaned.dedup

/-! ## Search provider adapter

Embeds the mock path of `backend/app/services/leadgen/google_places.py`. -/

structure PlaceResult where
  place_id : String
  name : String
  address : String := ""
  city : String := ""
  state : String := ""
  zip_code : String := ""
  phone : String := ""
  website : String := ""
  maps_url : String := ""
  rating : ℚ := 0
  review_count : Nat := 0
  category : String := ""
  types : List String := []
  latitude : ℚ := 0
  longitude : ℚ := 0
  opening_hours : Option String := none
deriving Repr

/-- Embeds `_generate_mock_businesses` (google_places.py lines 89-138).  The
loop runs `range(min(max_results, random.randint(10, 20)))`; the random draw
is the explicit parameter `randint_10_20` and the per-index construction of
one randomized record (name, address, phone, rating and so on) is abstracted
as `mk`. -/
def generate_mock_businesses (mk : Nat → PlaceResult) (randint_10_20 : Nat)
    (max_results : Nat) : List PlaceResult :=
  (List.range (min max_results randint_10_20)).map mk

/-- Embeds `search_places` (google_places.py lines 141-183): with an empty
`GOOGLE_MAPS_API_KEY` it falls back to mock data, otherwise it returns the
paginated provider results truncated by `results[:max_results]` (pagination
and parsing abstracted as the accumulated `provider_results` list). -/
def search_places (api_key : String) (mk : Nat → PlaceResult) (randint_10_20 : Nat)
    (provider_results : List PlaceResult) (max_results : Nat) : List PlaceResult :=
  if api_key == "" then generate_mock_businesses mk randint_10_20 max_results
  else provider_results.take max_results

/-- A fixed mock record, standing in for one draw of the randomized mock
business constructor. -/
def mockPlaceAt (i : Nat) : PlaceResult :=
  { place_id := "mock", name := "Elite Boise Plumbing", review_count := i }

/-! ## Enrichment orchestrator

Embeds `backend/app/services/leadgen/enrichment.py`.  The database is the
list of `Lead` rows plus the list of `SearchJob` rows; `crawl_website` is an
oracle returning either a `CrawlResult` or a raised exception
(`Except.error`), and `datetime.now()` is the field `now`.  The
`asyncio.gather` over the per-lead tasks is serialized in task-creation
order (ascending lead id, the `order_by(Lead.id)` of the query); every task
writes only its own lead row, so this is one representative schedule. -/

structure CrawlResult where
  url : String := ""
  status_code : Int := 0
  emails : List String := []
  phones : List String := []
  owner_name : String := ""
  facebook : String := ""
  instagram : String := ""
  linkedin : String := ""
  twitter : String := ""
  tiktok : String := ""
  youtube : String := ""
  yelp : String := ""
  platform : String := ""
  error : String := ""
deriving DecidableEq, Repr

structure EnrichEnv where
  crawl : String → Except String CrawlResult
  now : Nat

/-- The 30-day audit freshness window of enrichment.py line 70, in seconds. -/
def THIRTY_DAYS : Nat := 30 * 24 * 60 * 60

/-- Embeds `datetime.now() - lead.website_audit_date < timedelta(days=30)`
(enrichment.py lines 69-70). -/
def recentAudit (now : Nat) (lead : Lead) : Bool :=
  match lead.website_audit_date with
  | some d => decide (now - d < THIRTY_DAYS)
  | none => false

/-- The recurring `score, tier = score_lead(lead)` / field-assignment pair. -/
def rescoreLead (lead : Lead) : Lead :=
  let st := score_lead lead
  { lead with lead_score := st.1, lead_tier := st.2 }

/-- The crawl-result application of enrichment.py lines 95-133: store the
extracted fields, flip the status to `failed`/`enriched` by `crawl.error`,
rescore, and stamp the audit date.  The assignments to `website_phones`
(line 100) and `audit_lite_flags` (line 126) target attributes that are not
columns of `Lead` (models/lead.py): they are plain instance-attribute
writes, never read back, and are silently dropped at commit, so they leave
no trace in the committed row and are omitted here.  The audit-lite flag
list of lines 111-125 is likewise computed but goes nowhere persistent. -/
def applyCrawl (now : Nat) (lead : Lead) (crawl : CrawlResult) : Lead :=
  let lead := { lead with
    website_status := some crawl.status_code
    website_platform := some crawl.platform
    emails := crawl.emails
    facebook_url := some crawl.facebook
    instagram_url := some crawl.instagram
    linkedin_url := some crawl.linkedin
    twitter_url := some crawl.twitter
    tiktok_url := some crawl.tiktok
    youtube_url := some crawl.youtube
    yelp_url := some crawl.yelp
    enrichment_status := if crawl.error != "" then "failed" else "enriched" }
  let lead := rescoreLead lead
  { lead with website_audit_date := some now }

/-- The exception message of the copy-from-existing branch: enrichment.py
line 47 reads `existing_lead.website_phones`, which is not a column of
`Lead` (models/lead.py) and not set on the freshly loaded instance. -/
def websitePhonesAttributeError : String :=
  "AttributeError: Lead object has no attribute website_phones"

/-- The duplicate lookup of enrichment.py lines 30-38: another lead with the
same (truthy) google_place_id that is already enriched. -/
def findEnrichedDuplicate (leads : List Lead) (lead : Lead) : Option Lead :=
  if optStrTruthy lead.google_place_id then
    leads.find? (fun l =>
      l.google_place_id == lead.google_place_id
        && l.enrichment_status == "enriched" && l.id != lead.id)
  else none

/-- One enrichment pass over the looked-up lead row (enrichment.py lines
29-133, after the already-enriched guard).  The second component is the
exception raised, if any.  Two steps raise: (a) when a duplicate enriched
lead is found, the copy block of lines 42-64 reads
`existing_lead.website_phones` on line 47 — not a column of `Lead` — and
raises AttributeError before the branch commit on line 65, so the committed
row is unchanged (its in-memory mutations are rolled back with the task
session); (b) the awaited crawl, at which point the only committed change
is `enrichment_status = "crawling"` (the commit on line 80); the
uncommitted `has_website = True` of line 92 is discarded when the task
session closes on the exception. -/
def enrich_lead_row (env : EnrichEnv) (leads : List Lead) (lead : Lead) :
    Lead × Option String :=
  match findEnrichedDuplicate leads lead with
  | some _ => (lead, some websitePhonesAttributeError)
  | none =>
    if recentAudit env.now lead then
      (rescoreLead { lead with enrichment_status := "enriched" }, none)
    else
      let leadC := { lead with enrichment_status := "crawling" }
      if !(optStrTruthy lead.website) then
        (rescoreLead { leadC with
            has_website := false
            enrichment_status := "enriched"
            audit_status := "no_website" }, none)
      else
        match env.crawl (lead.website.getD "") with
        | Except.error e => (leadC, some e)
        | Except.ok crawl =>
            (applyCrawl env.now { leadC with has_website := true } crawl, none)

/-- Embeds `enrich_lead` (enrichment.py lines 17-133): look the row up by id,
return unchanged if missing or already `enriched`, otherwise replace that
row by the processed row.  The second component is the exception raised. -/
def enrich_lead (env : EnrichEnv) (lead_id : Nat) (leads : List Lead) :
    List Lead × Option String :=
  match leads.find? (fun l => l.id == lead_id) with
  | none => (leads, none)
  | some lead =>
    if lead.enrichment_status == "enriched" then (leads, none)
    else
      let r := enrich_lead_row env leads lead
      (leads.map (fun l => if l.id == lead_id then r.1 else l), r.2)

/-- The row query of enrich_job (enrichment.py lines 144-149): ids of the
job's `pending` leads, ordered ascending by id. -/
def pendingLeadIds (leads : List Lead) (job_id : Nat) : List Nat :=
  List.insertionSort (fun a b => a ≤ b)
    ((leads.filter (fun l =>
      l.search_job_id == some job_id && l.enrichment_status == "pending")).map
        (fun l => l.id))

/-- An `UPDATE search_jobs SET ... WHERE id = job_id`. -/
def updateJob (jobs : List SearchJob) (job_id : Nat) (f : SearchJob → SearchJob) :
    List SearchJob :=
  jobs.map (fun j => if j.id == job_id then f j else j)

structure LeadStore where
  leads : List Lead
  jobs : List SearchJob
deriving DecidableEq, Repr

/-- Embeds `enrich_job` (enrichment.py lines 136-179): select the pending
rows, mark the job `running`, run `_enrich_one` per row — the exception of a
row is swallowed (logged) and the `enriched` counter is incremented either
way — and finalize the job to `complete` with `enriched_count` set to the
counter. -/
def enrich_job (env : EnrichEnv) (job_id : Nat) (st : LeadStore) : LeadStore :=
  let lead_rows := pendingLeadIds st.leads job_id
  let jobs := updateJob st.jobs job_id (fun j => { j with status := "running" })
  let processed := lead_rows.foldl
    (fun acc lead_id => ((enrich_lead env lead_id acc.1).1, acc.2 + 1)) (st.leads, 0)
  { leads := processed.1
    jobs := updateJob jobs job_id
      (fun j => { j with status := "complete", enriched_count := processed.2 }) }

/-- The enrichment-status order of the specification: a status may stay put
or move forward along pending → crawling → {enriched, failed}. -/
def statusChainLe (a b : String) : Prop :=
  a = b
  ∨ (a = "pending" ∧ (b = "crawling" ∨ b = "enriched" ∨ b = "failed"))
  ∨ (a = "crawling" ∧ (b = "enriched" ∨ b = "failed"))

/-- The lead's unit of work cannot raise: its crawl oracle call (made only
when the lead has a truthy website) does not return an exception. -/
def crawlCannotRaise (env : EnrichEnv) (lead : Lead) : Prop :=
  optStrTruthy lead.website = true →
    ∀ e, env.crawl (lead.website.getD "") ≠ Except.error e

/-- Identity and dedup key of a lead row; enrichment never rewrites either
field, so this pair is invariant across the pipeline. -/
def leadKey (l : Lead) : Nat × Option String := (l.id, l.google_place_id)

/-- No other row shares this lead's (truthy) google_place_id.  When this
fails, the lead's unit of work can enter the copy-from-duplicate branch,
which in the source raises AttributeError (enrichment.py line 47 reads the
unmapped `website_phones`) and leaves the row pending. -/
def placeIdUnique (leads : List Lead) (lead : Lead) : Prop :=
  optStrTruthy lead.google_place_id = true →
    ∀ l2 ∈ leads, l2.google_place_id = lead.google_place_id → l2.id = lead.id

/-! ## Stats endpoint

Embeds `get_stats` of `backend/app/api/leadgen.py` (lines 137-186). -/

structure StatsResponse where
  total_leads : Nat
  enriched : Nat
  with_website : Nat
  without_website : Nat
  hot_leads : Nat
  warm_leads : Nat
  cold_leads : Nat
  avg_lead_score : ℚ
  top_categories : List (String × Nat)
  contacted : Nat
  won : Nat
  lost : Nat
deriving Repr

/-- Python `round(x, 1)`.  Mathlib's `round` rounds half up while Python
rounds half to even; the two agree except at exact ties, which do not matter
to any claim here. -/
def pyRound1 (q : ℚ) : ℚ := (round (q * 10) : ℤ) / 10

/-- The `top_categories` query of get_stats lines 160-167: count per non-null
category, order by count descending, limit 10. -/
def top_categories_stat (leads : List Lead) : List (String × Nat) :=
  let cats := leads.filterMap (fun l => l.business_category)
  (List.insertionSort (fun a b : String × Nat => b.2 ≤ a.2)
    (cats.dedup.map (fun c => (c, cats.count c)))).take 10

/-- The exception raised by get_stats: leadgen.py line 170 builds the query
expression `Lead.contact_outcome == "won"`, but `contact_outcome` is not a
mapped column of `Lead` (models/lead.py), so the class-attribute access
raises before the query runs. -/
def contactOutcomeAttributeError : String :=
  "AttributeError: type object Lead has no attribute contact_outcome"

/-- Embeds `get_stats` (leadgen.py lines 137-186).  The handler runs its
queries in source order — `total` over the `base` query carrying the
`search_job_id` filter (a falsy id, None or 0, disables it), every other
figure over the whole `leads` table — up to `contacted` (line 169); then
line 170 accesses `Lead.contact_outcome`, which models/lead.py does not
declare, and raises AttributeError on every call, so no `StatsResponse` is
ever produced.  The bindings record the execution prefix before the
raise. -/
def get_stats (leads : List Lead) (search_job_id : Option Nat) :
    Except String StatsResponse :=
  let base :=
    if optNatTruthy search_job_id then
      leads.filter (fun l => l.search_job_id == search_job_id)
    else leads
  let total_leads := base.length
  let enriched := (leads.filter (fun l => l.enrichment_status == "enriched")).length
  let with_website := (leads.filter (fun l => l.has_website)).length
  let without_website :=
    (leads.filter (fun l => !l.has_website && l.enrichment_status == "enriched")).length
  let hot_leads := (leads.filter (fun l => l.lead_tier == "hot")).length
  let warm_leads := (leads.filter (fun l => l.lead_tier == "warm")).length
  let cold_leads := (leads.filter (fun l => l.lead_tier == "cold")).length
  let avg_lead_score :=
    pyRound1 (if leads.isEmpty then 0
      else (leads.map (fun l => (l.lead_score : ℚ))).sum / leads.length)
  let top_categories := top_categories_stat leads
  let contacted := (leads.filter (fun l => l.outreach_status != "none")).length
  Except.error contactOutcomeAttributeError

/-! ## Semaphore discipline

Embeds the concurrency structure of `enrich_job`: `_enrich_one` enters
`async with semaphore` (an `asyncio.Semaphore(3)`) before doing its work and
leaves it afterwards.  A task is `waiting` before acquiring, `working`
while holding a permit, `done` after releasing; the scheduler may interleave
the tasks arbitrarily. -/

inductive TaskPhase where
  | waiting
  | working
  | done
deriving DecidableEq, Repr

structure SemSchedState where
  semValue : Nat
  tasks : List TaskPhase
deriving DecidableEq, Repr

/-- The bound of `asyncio.Semaphore(3)` (enrichment.py line 157). -/
def semaphoreLimit : Nat := 3

/-- One scheduler step: a waiting task acquires a permit when one is free, or
a working task finishes and releases its permit. -/
inductive SemStep : SemSchedState → SemSchedState → Prop where
  | acquire (s : SemSchedState) (i : Nat) (hi : s.tasks.get? i = some TaskPhase.waiting)
      (hs : 0 < s.semValue) :
      SemStep s ⟨s.semValue - 1, s.tasks.set i TaskPhase.working⟩
  | release (s : SemSchedState) (i : Nat) (hi : s.tasks.get? i = some TaskPhase.working) :
      SemStep s ⟨s.semValue + 1, s.tasks.set i TaskPhase.done⟩

/-- The initial state of an `enrich_job` run with `n` per-lead tasks. -/
def semInit (n : Nat) : SemSchedState :=
  ⟨semaphoreLimit, List.replicate n TaskPhase.waiting⟩

inductive SemReachable (n : Nat) : SemSchedState → Prop where
  | init : SemReachable n (semInit n)
  | step {s t : SemSchedState} : SemReachable n s → SemStep s t → SemReachable n t

/-- Number of tasks inside the semaphore-guarded block (crawling leads). -/
def workingCount (s : SemSchedState) : Nat :=
  s.tasks.countP (fun p => p == TaskPhase.working)

/-! ## Concrete stores and environments used by the worked instances -/

/-- One successful crawl with no extracted signals, platform `custom`. -/
def demoCrawlOk (url : String) : CrawlResult :=
  { url := url, status_code := 200, platform := "custom" }

/-- Environment in which every crawl succeeds except lead 10's website,
whose crawl raises. -/
def demoEnv : EnrichEnv :=
  { crawl := fun url =>
      if url == "https://lead10.example" then Except.error "connection reset"
      else Except.ok (demoCrawlOk url)
    now := 1000 }

/-- A pending lead of job 1 with the given id and website. -/
def demoLead (i : Nat) (w : String) : Lead :=
  { id := i, search_job_id := some 1, website := some w, has_website := true }

/-- A 10-lead search job, all leads pending with websites. -/
def demoStore : LeadStore :=
  { leads :=
      [demoLead 1 "https://lead1.example", demoLead 2 "https://lead2.example",
       demoLead 3 "https://lead3.example", demoLead 4 "https://lead4.example",
       demoLead 5 "https://lead5.example", demoLead 6 "https://lead6.example",
       demoLead 7 "https://lead7.example", demoLead 8 "https://lead8.example",
       demoLead 9 "https://lead9.example", demoLead 10 "https://lead10.example"]
    jobs := [{ id := 1, query := "plumber", location := "Boise, ID",
               status := "complete", total_found := 10 }] }

/-- Fallback row for list lookups. -/
def noJob : SearchJob := { id := 0 }

/-- An environment whose crawls always raise; the stores below never crawl. -/
def demoEnvOffline : EnrichEnv :=
  { crawl := fun _ => Except.error "network unavailable", now := 0 }

/-- A single-lead job whose lead has no website. -/
def demoStoreOneLead : LeadStore :=
  { leads := [{ id := 1, search_job_id := some 1 }]
    jobs := [{ id := 1, query := "plumber", location := "Boise, ID",
               status := "complete", total_found := 1 }] }

/-- A small mixed store for the stats instance: two jobs, varied statuses. -/
def demoStatsLeads : List Lead :=
  [{ id := 1, search_job_id := some 1, enrichment_status := "enriched",
     has_website := true, lead_tier := "hot", lead_score := 60,
     business_category := some "plumber", outreach_status := "contacted" },
   { id := 2, search_job_id := some 1, enrichment_status := "pending",
     lead_tier := "unscored", business_category := some "plumber" },
   { id := 3, search_job_id := some 2, enrichment_status := "enriched",
     has_website := false, lead_tier := "warm", lead_score := 40,
     business_category := some "roofer", outreach_status := "contacted" }]

/-- A lead scoring in the `hot` tier: no website, an email, a phone, 100
reviews, two social URLs, and a `wix` platform record. -/
def exampleHotLead : Lead :=
  { id := 2
    website := none
    has_website := false
    emails := ["owner@hotlead.example"]
    phone := some "(208) 555-0100"
    google_reviews_count := some 100
    facebook_url := some "https://facebook.com/hotlead"
    instagram_url := some "https://instagram.com/hotlead"
    website_platform := some "wix" }

/-- The lead-list component of the enrich_job fold, named for the proofs:
the per-lead tasks applied in ascending-id order. -/
def processLeads (env : EnrichEnv) (rows : List Nat) (leads : List Lead) : List Lead :=
  rows.foldl (fun ls i => (enrich_lead env i ls).1) leads

/-- The single lead of `demoStoreOneLead`. -/
def c4Lead : Lead := { id := 1, search_job_id := some 1 }

/-- An already-enriched lead row. -/
def c4EnrichedLead : Lead := { id := 1, search_job_id := some 1, enrichment_status := "enriched" }

/-- A raw extraction set: one keeper, one denylisted domain, one
asset-extension domain. -/
def demoRawEmails : List (List Char) :=
  ["Sales@Biz.Example".data, "track@sentry.io".data, "logo@cdn.svg".data]

/-! ## Lemmas and claim theorems -/

lemma SCORING_RULES_no_website : SCORING_RULES "no_website" = 25 := rfl
lemma SCORING_RULES_bad_website : SCORING_RULES "bad_website_score" = 20 := rfl
lemma SCORING_RULES_mediocre : SCORING_RULES "mediocre_website" = 10 := rfl
lemma SCORING_RULES_email : SCORING_RULES "has_email" = 10 := rfl
lemma SCORING_RULES_phone : SCORING_RULES "has_phone" = 5 := rfl
lemma SCORING_RULES_rating : SCORING_RULES "high_google_rating" = 5 := rfl
lemma SCORING_RULES_reviews : SCORING_RULES "many_reviews" = 5 := rfl
lemma SCORING_RULES_socials : SCORING_RULES "has_socials" = 5 := rfl
lemma SCORING_RULES_platform : SCORING_RULES "old_platform" = 15 := rfl

lemma score_lead_fst_eq_rubric (lead : Lead) :
    (score_lead lead).1 = (score_lead_rubric lead).1 := by
  simp only [score_lead, score_lead_rubric, SCORING_RULES_no_website,
    SCORING_RULES_bad_website, SCORING_RULES_mediocre, SCORING_RULES_email,
    SCORING_RULES_phone, SCORING_RULES_rating, SCORING_RULES_reviews,
    SCORING_RULES_socials, SCORING_RULES_platform, Nat.zero_add]

lemma score_lead_eq_rubric (lead : Lead) : score_lead lead = score_lead_rubric lead := by
  have h1 : score_lead lead = ((score_lead lead).1, tier_of (score_lead lead).1) := rfl
  have h2 : score_lead_rubric lead
      = ((score_lead_rubric lead).1, tier_of (score_lead_rubric lead).1) := rfl
  rw [h1, h2, score_lead_fst_eq_rubric]


set_option maxHeartbeats 800000 in
lemma score_rubric_le_70 (lead : Lead) : (score_lead_rubric lead).1 ≤ 70 := by
  dsimp only [score_lead_rubric]
  rcases hgr : lead.google_rating with - | r <;>
  rcases hgrc : lead.google_reviews_count with - | n <;>
  rcases hwpl : lead.website_platform with - | p <;>
  rcases hwas : lead.website_audit_score with - | s <;>
    simp only [hgr, hgrc, hwpl, hwas] <;>
    split_ifs <;> omega

lemma score_lead_le_70 (lead : Lead) : (score_lead lead).1 ≤ 70 := by
  rw [score_lead_fst_eq_rubric]; exact score_rubric_le_70 lead

lemma score_lead_snd_eq_tier (lead : Lead) :
    (score_lead lead).2 = tier_of (score_lead lead).1 := rfl

lemma tier_of_hot {s : Nat} (h : tier_of s = "hot") : 60 ≤ s := by
  unfold tier_of at h
  split_ifs at h with h1 h2 h3
  · exact h1
  · exact absurd h (by decide)
  · exact absurd h (by decide)
  · exact absurd h (by decide)

lemma calculate_audit_score_eq_rubric (audit : WebsiteAudit) :
    calculate_audit_score audit = audit_score_rubric audit := by
  simp only [calculate_audit_score, audit_score_rubric, Nat.zero_add]

/-- C2: `score_lead` is a pure function of the stored fields implementing
exactly the claimed additive rubric — +25 with no website, else +20/+10 by
audit score below 60/75; +10 for an email, +5 for a phone, +5 for rating at
least 4.0, +5 for at least 50 reviews, +5 for at least two of the four
social URLs, +15 for an upgrade-opportunity platform — with tiers hot/warm/
cold/unscored at 60/35/15; on the worked example (no website, 2 emails, a
phone, rating 4.2, 80 reviews, 2 socials) it returns exactly (55, "warm"). -/
theorem score_lead_implements_rubric :
    (∀ lead : Lead, score_lead lead = score_lead_rubric lead)
    ∧ score_lead exampleWarmLead = (55, "warm") :=
  ⟨score_lead_eq_rubric, by decide⟩

/-- C3: the audit score of a successfully fetched page is the capped sum of
the fixed rubric — +25 SSL, +20 email, +15 phone, +10 meta description with
+5 when its length is 120-160, +10 title length 30-60, +10 viewport, +5 for
at least two social matches, capped at 100 — the letter grade falls at the
thresholds 90/80/70/60, and the worked example (HTTPS, phone, one social,
nothing else) scores 40 with grade F. -/
theorem audit_score_implements_rubric :
    (∀ audit : WebsiteAudit, calculate_audit_score audit = audit_score_rubric audit)
    ∧ (∀ s : Nat, (90 ≤ s → score_to_grade s = "A")
        ∧ (80 ≤ s → s < 90 → score_to_grade s = "B")
        ∧ (70 ≤ s → s < 80 → score_to_grade s = "C")
        ∧ (60 ≤ s → s < 70 → score_to_grade s = "D")
        ∧ (s < 60 → score_to_grade s = "F"))
    ∧ calculate_audit_score exampleAuditPage = 40
    ∧ score_to_grade (calculate_audit_score exampleAuditPage) = "F" := by
  refine ⟨calculate_audit_score_eq_rubric, ?_, by decide, by decide⟩
  intro s
  unfold score_to_grade
  refine ⟨?_, ?_, ?_, ?_, ?_⟩ <;> intro h1 <;> (try intro h2) <;>
    split_ifs <;> first | rfl | omega

/-- Witness for C3 at concrete scores and the worked example page. -/
theorem audit_score_implements_rubric_witness :
    score_to_grade 95 = "A" ∧ score_to_grade 59 = "F"
      ∧ calculate_audit_score exampleAuditPage = 40 :=
  ⟨(audit_score_implements_rubric.2.1 95).1 (by norm_num),
   (audit_score_implements_rubric.2.1 59).2.2.2.2 (by norm_num),
   audit_score_implements_rubric.2.2.1⟩

/-- C10: every lead's score lies in 0..70 — the no-website +25 and the
audit-based +20/+10 are mutually exclusive, so the weights can never sum
above 70 — and hence every `hot` lead scores within [60, 70]. -/
theorem score_lead_range :
    ∀ lead : Lead, (score_lead lead).1 ≤ 70
      ∧ ((score_lead lead).2 = "hot" →
          60 ≤ (score_lead lead).1 ∧ (score_lead lead).1 ≤ 70) := by
  intro lead
  refine ⟨score_lead_le_70 lead, fun h => ⟨?_, score_lead_le_70 lead⟩⟩
  rw [score_lead_snd_eq_tier] at h
  exact tier_of_hot h

/-- Witness for C10 at a concrete hot lead. -/
theorem score_lead_range_witness :
    (score_lead exampleHotLead).2 = "hot"
      ∧ 60 ≤ (score_lead exampleHotLead).1 ∧ (score_lead exampleHotLead).1 ≤ 70 :=
  ⟨by decide, (score_lead_range exampleHotLead).2 (by decide)⟩

lemma enrich_lead_row_id (env : EnrichEnv) (leads : List Lead) (lead : Lead) :
    ((enrich_lead_row env leads lead).1).id = lead.id := by
  unfold enrich_lead_row
  dsimp only
  repeat' split
  all_goals rfl

lemma enrich_lead_row_place (env : EnrichEnv) (leads : List Lead) (lead : Lead) :
    ((enrich_lead_row env leads lead).1).google_place_id = lead.google_place_id := by
  unfold enrich_lead_row
  dsimp only
  repeat' split
  all_goals rfl

lemma enrich_lead_row_status (env : EnrichEnv) (leads : List Lead) (lead : Lead) :
    ((enrich_lead_row env leads lead).1).enrichment_status = lead.enrichment_status
    ∨ ((enrich_lead_row env leads lead).1).enrichment_status = "crawling"
    ∨ ((enrich_lead_row env leads lead).1).enrichment_status = "enriched"
    ∨ ((enrich_lead_row env leads lead).1).enrichment_status = "failed" := by
  unfold enrich_lead_row applyCrawl
  dsimp only
  repeat' split
  all_goals simp [rescoreLead]

lemma findEnrichedDuplicate_eq_none {leads : List Lead} {lead : Lead}
    (hpid : placeIdUnique leads lead) :
    findEnrichedDuplicate leads lead = none := by
  unfold findEnrichedDuplicate
  split
  · rename_i htr
    rw [List.find?_eq_none]
    intro x hx
    simp only [Bool.and_eq_true, bne_iff_ne, beq_iff_eq, not_and]
    intro hpe
    exact not_not_intro (hpid htr x hx hpe.1)
  · rfl

lemma enrich_lead_row_terminal (env : EnrichEnv) (leads : List Lead) (lead : Lead)
    (hpid : placeIdUnique leads lead) (hcr : crawlCannotRaise env lead) :
    ((enrich_lead_row env leads lead).1).enrichment_status = "enriched"
    ∨ ((enrich_lead_row env leads lead).1).enrichment_status = "failed" := by
  unfold enrich_lead_row applyCrawl
  rw [findEnrichedDuplicate_eq_none hpid]
  dsimp only
  repeat' split
  all_goals try simp [rescoreLead]
  rename_i hw x e hcrawl
  exfalso
  refine hcr ?_ _ hcrawl
  revert hw
  cases optStrTruthy lead.website <;> simp

lemma enrich_lead_fst_length (env : EnrichEnv) (i : Nat) (ls : List Lead) :
    ((enrich_lead env i ls).1).length = ls.length := by
  unfold enrich_lead
  repeat' split
  all_goals simp

lemma enrich_lead_map_id (env : EnrichEnv) (i : Nat) (ls : List Lead) :
    ((enrich_lead env i ls).1).map Lead.id = ls.map Lead.id := by
  unfold enrich_lead
  cases hfind : ls.find? (fun l => l.id == i) with
  | none => rfl
  | some lead =>
    simp only
    split
    · rfl
    · rw [List.map_map]
      apply List.map_congr_left
      intro a _
      by_cases hai : (a.id == i) = true
      · have h1 : lead.id = i := by simpa using List.find?_some hfind
        have h2 : a.id = i := by simpa using hai
        simp [Function.comp, hai, enrich_lead_row_id, h1, h2]
      · simp [Function.comp, hai]

lemma enrich_lead_map_key (env : EnrichEnv) (i : Nat) (ls : List Lead)
    (hnd : (ls.map Lead.id).Nodup) :
    ((enrich_lead env i ls).1).map leadKey = ls.map leadKey := by
  unfold enrich_lead
  cases hfind : ls.find? (fun l => l.id == i) with
  | none => rfl
  | some lead =>
    simp only
    split
    · rfl
    · rw [List.map_map]
      apply List.map_congr_left
      intro a ha
      by_cases hai : (a.id == i) = true
      · have h1 : lead.id = i := by simpa using List.find?_some hfind
        have h2 : a.id = i := by simpa using hai
        have hmem : lead ∈ ls := List.mem_of_find?_eq_some hfind
        have hal : a = lead := List.inj_on_of_nodup_map hnd ha hmem (by rw [h2, h1])
        simp [Function.comp, hai, leadKey, enrich_lead_row_id, enrich_lead_row_place, hal, h1]
      · simp [Function.comp, hai]

lemma enrich_lead_get?_ne (env : EnrichEnv) (i : Nat) (ls : List Lead) (n : Nat)
    (hne : ∀ l, ls.get? n = some l → l.id ≠ i) :
    ((enrich_lead env i ls).1).get? n = ls.get? n := by
  unfold enrich_lead
  cases hfind : ls.find? (fun l => l.id == i) with
  | none => rfl
  | some lead =>
    simp only
    split
    · rfl
    · rw [List.get?_map]
      cases hg : ls.get? n with
      | none => rfl
      | some l =>
        have hli : (l.id == i) = false := by simpa using hne l hg
        simp only [Option.map_some']
        rw [if_neg (by simp [hli])]

lemma find_id_unique {ls : List Lead} (hnd : (ls.map Lead.id).Nodup) {l : Lead} {i : Nat}
    (hmem : l ∈ ls) (hid : l.id = i) :
    ls.find? (fun x => x.id == i) = some l := by
  cases hf : ls.find? (fun x => x.id == i) with
  | none =>
    have := List.find?_eq_none.mp hf l hmem
    simp [hid] at this
  | some y =>
    have hy : y ∈ ls := List.mem_of_find?_eq_some hf
    have hyid : y.id = i := by simpa using List.find?_some hf
    have : y = l := List.inj_on_of_nodup_map hnd hy hmem (by rw [hyid, hid])
    rw [this]

lemma enrich_lead_processed (env : EnrichEnv) {ls : List Lead} {l : Lead} {i n : Nat}
    (hnd : (ls.map Lead.id).Nodup) (hget : ls.get? n = some l) (hid : l.id = i)
    (hne : l.enrichment_status ≠ "enriched") :
    ((enrich_lead env i ls).1).get? n = some (enrich_lead_row env ls l).1 := by
  have hmem : l ∈ ls := by
    obtain ⟨h, rfl⟩ := List.get?_eq_some.mp hget
    exact List.get_mem ls n h
  unfold enrich_lead
  rw [find_id_unique hnd hmem hid]
  have hbe : (l.enrichment_status == "enriched") = false := by simpa using hne
  simp only [hbe, Bool.false_eq_true, if_false, List.get?_map, hget, Option.map_some',
    hid, beq_self_eq_true, if_true]

lemma mem_of_get? {α : Type} {l : List α} {n : Nat} {a : α} (h : l.get? n = some a) :
    a ∈ l := by
  obtain ⟨hlt, rfl⟩ := List.get?_eq_some.mp h
  exact List.get_mem l n hlt

lemma processLeads_cons (env : EnrichEnv) (j : Nat) (rest : List Nat) (ls : List Lead) :
    processLeads env (j :: rest) ls = processLeads env rest ((enrich_lead env j ls).1) := rfl

lemma fold_pair_fst (env : EnrichEnv) (rows : List Nat) :
    ∀ (ls : List Lead) (k : Nat),
      (rows.foldl (fun acc lead_id => ((enrich_lead env lead_id acc.1).1, acc.2 + 1)) (ls, k)).1
        = processLeads env rows ls := by
  induction rows with
  | nil => intro ls k; rfl
  | cons j rest ih => intro ls k; exact ih _ _

lemma fold_pair_snd (env : EnrichEnv) (rows : List Nat) :
    ∀ (ls : List Lead) (k : Nat),
      (rows.foldl (fun acc lead_id => ((enrich_lead env lead_id acc.1).1, acc.2 + 1)) (ls, k)).2
        = k + rows.length := by
  induction rows with
  | nil => intro ls k; simp
  | cons j rest ih =>
    intro ls k
    have := ih ((enrich_lead env j ls).1) (k + 1)
    simp only [List.foldl_cons, this, List.length_cons]
    omega

lemma processLeads_map_id (env : EnrichEnv) (rows : List Nat) :
    ∀ ls : List Lead, (processLeads env rows ls).map Lead.id = ls.map Lead.id := by
  induction rows with
  | nil => intro ls; rfl
  | cons j rest ih =>
    intro ls
    rw [processLeads_cons, ih, enrich_lead_map_id]

lemma processLeads_get?_untouched (env : EnrichEnv) (rows : List Nat) :
    ∀ (ls : List Lead) (n : Nat), (∀ l, ls.get? n = some l → l.id ∉ rows) →
      (processLeads env rows ls).get? n = ls.get? n := by
  induction rows with
  | nil => intro ls n _; rfl
  | cons j rest ih =>
    intro ls n h
    have hstep : ((enrich_lead env j ls).1).get? n = ls.get? n :=
      enrich_lead_get?_ne env j ls n (fun l hl hlj => by
        have := h l hl
        rw [hlj] at this
        exact this (List.mem_cons_self j rest))
    rw [processLeads_cons, ih _ n ?_, hstep]
    intro l hl
    rw [hstep] at hl
    have := h l hl
    intro hmem
    exact this (List.mem_cons_of_mem j hmem)

lemma processLeads_get?_mem (env : EnrichEnv) (rows : List Nat) :
    ∀ (ls : List Lead) (n : Nat) (l : Lead),
      (ls.map Lead.id).Nodup → rows.Nodup →
      ls.get? n = some l → l.id ∈ rows → l.enrichment_status = "pending" →
      ∃ mid : List Lead, mid.get? n = some l
        ∧ mid.map leadKey = ls.map leadKey
        ∧ (processLeads env rows ls).get? n = some (enrich_lead_row env mid l).1 := by
  induction rows with
  | nil => intro ls n l _ _ _ hmem _; simp at hmem
  | cons j rest ih =>
    intro ls n l hnd hrnd hget hmem hpend
    by_cases hj : l.id = j
    · refine ⟨ls, hget, rfl, ?_⟩
      have hne : l.enrichment_status ≠ "enriched" := by rw [hpend]; decide
      have hstep := enrich_lead_processed env hnd hget hj hne
      have hrest : l.id ∉ rest := by
        rw [hj]; exact (List.nodup_cons.mp hrnd).1
      rw [processLeads_cons, processLeads_get?_untouched env rest _ n ?_, hstep]
      intro l2 hl2
      rw [hstep] at hl2
      injection hl2 with h2
      rw [← h2, enrich_lead_row_id]
      exact hrest
    · have hstep : ((enrich_lead env j ls).1).get? n = ls.get? n :=
        enrich_lead_get?_ne env j ls n (fun l2 hl2 => by
          rw [hget] at hl2
          injection hl2 with h2
          rw [← h2]
          exact hj)
      have hnd2 : (((enrich_lead env j ls).1).map Lead.id).Nodup := by
        rw [enrich_lead_map_id]; exact hnd
      have hget2 : ((enrich_lead env j ls).1).get? n = some l := by rw [hstep, hget]
      have hmem2 : l.id ∈ rest := by
        rcases List.mem_cons.mp hmem with h | h
        · exact absurd h hj
        · exact h
      rw [processLeads_cons]
      obtain ⟨mid, hm1, hm2, hm3⟩ :=
        ih _ n l hnd2 (List.nodup_cons.mp hrnd).2 hget2 hmem2 hpend
      exact ⟨mid, hm1, by rw [hm2, enrich_lead_map_key env j ls hnd], hm3⟩

lemma mem_pendingLeadIds {ls : List Lead} {job_id i : Nat} :
    i ∈ pendingLeadIds ls job_id ↔
      ∃ l ∈ ls, l.search_job_id = some job_id ∧ l.enrichment_status = "pending" ∧ l.id = i := by
  unfold pendingLeadIds
  rw [List.mem_insertionSort, List.mem_map]
  constructor
  · rintro ⟨l, hl, rfl⟩
    rw [List.mem_filter] at hl
    obtain ⟨hmem, hcond⟩ := hl
    simp only [Bool.and_eq_true, beq_iff_eq] at hcond
    exact ⟨l, hmem, hcond.1, hcond.2, rfl⟩
  · rintro ⟨l, hl, hjob, hpend, rfl⟩
    exact ⟨l, List.mem_filter.mpr ⟨hl, by simp [hjob, hpend]⟩, rfl⟩

lemma pendingLeadIds_nodup {ls : List Lead} (job_id : Nat)
    (hnd : (ls.map Lead.id).Nodup) : (pendingLeadIds ls job_id).Nodup := by
  unfold pendingLeadIds
  refine (List.perm_insertionSort _ _).symm.nodup ?_
  exact hnd.sublist ((List.filter_sublist ls).map Lead.id)

lemma pendingLeadIds_length (ls : List Lead) (job_id : Nat) :
    (pendingLeadIds ls job_id).length
      = (ls.filter (fun l =>
          l.search_job_id == some job_id && l.enrichment_status == "pending")).length := by
  unfold pendingLeadIds
  rw [List.length_insertionSort, List.length_map]

lemma enrich_job_leads (env : EnrichEnv) (job_id : Nat) (st : LeadStore) :
    (enrich_job env job_id st).leads
      = processLeads env (pendingLeadIds st.leads job_id) st.leads := by
  unfold enrich_job
  exact fold_pair_fst env _ st.leads 0

lemma enrich_job_jobs_complete (env : EnrichEnv) (job_id : Nat) (st : LeadStore) :
    ∀ j ∈ (enrich_job env job_id st).jobs, j.id = job_id →
      j.status = "complete" ∧ j.enriched_count = (pendingLeadIds st.leads job_id).length := by
  intro j hj hid
  unfold enrich_job updateJob at hj
  dsimp only at hj
  rw [List.map_map, List.mem_map] at hj
  obtain ⟨x, hx, rfl⟩ := hj
  dsimp only [Function.comp] at hid ⊢
  by_cases hxi : (x.id == job_id) = true
  · refine ⟨by simp [hxi], ?_⟩
    simp only [hxi, if_true]
    have := fold_pair_snd env (pendingLeadIds st.leads job_id) st.leads 0
    simpa using this
  · simp only [hxi, Bool.false_eq_true, if_false] at hid ⊢
    rw [hid] at hxi
    simp at hxi

/-- C1: enrich_job processes every pending lead of the job even when one
lead's enrichment raises: the job is always finalized to status `complete`
with `enriched_count` equal to the number of pending leads (failures counted
like successes); every pending lead whose own unit of work does not raise —
its crawl does not throw and it has no duplicate place id, since the
copy-from-duplicate branch raises AttributeError in the source
(enrichment.py line 47 reads the unmapped `website_phones`) — ends in a
terminal status (`enriched` or `failed`); and on the concrete 10-lead job
in which lead 10's crawl raises, the other 9 leads end `enriched` and the
job ends `complete` with `enriched_count = 10`. -/
theorem enrich_job_isolates_failures :
    (∀ (env : EnrichEnv) (st : LeadStore) (job_id : Nat),
        (st.leads.map Lead.id).Nodup →
        (∀ j ∈ (enrich_job env job_id st).jobs, j.id = job_id →
            j.status = "complete"
              ∧ j.enriched_count = (st.leads.filter (fun l =>
                  l.search_job_id == some job_id
                    && l.enrichment_status == "pending")).length)
          ∧ (∀ l ∈ st.leads, l.search_job_id = some job_id →
              l.enrichment_status = "pending" →
              placeIdUnique st.leads l → crawlCannotRaise env l →
              ∀ l2 ∈ (enrich_job env job_id st).leads, l2.id = l.id →
                l2.enrichment_status = "enriched" ∨ l2.enrichment_status = "failed"))
    ∧ ((enrich_job demoEnv 1 demoStore).leads.countP
          (fun l => l.enrichment_status == "enriched") = 9
        ∧ ∀ j ∈ (enrich_job demoEnv 1 demoStore).jobs,
            j.status = "complete" ∧ j.enriched_count = 10) := by
  constructor
  · intro env st job_id hnd
    constructor
    · intro j hj hid
      have h := enrich_job_jobs_complete env job_id st j hj hid
      rw [pendingLeadIds_length] at h
      exact h
    · intro l hl hjob hpend hpidu hcr l2 hl2 hid2
      obtain ⟨n, hget⟩ := List.get?_of_mem hl
      have hmemrow : l.id ∈ pendingLeadIds st.leads job_id :=
        mem_pendingLeadIds.mpr ⟨l, hl, hjob, hpend, rfl⟩
      obtain ⟨mid, hmidget, hkey, hres⟩ :=
        processLeads_get?_mem env (pendingLeadIds st.leads job_id) st.leads n l hnd
          (pendingLeadIds_nodup job_id hnd) hget hmemrow hpend
      have hpid_mid : placeIdUnique mid l := by
        intro htr l3 hl3 hpe
        have hkmem : leadKey l3 ∈ mid.map leadKey := List.mem_map_of_mem leadKey hl3
        rw [hkey] at hkmem
        obtain ⟨l4, hl4, hk4⟩ := List.mem_map.mp hkmem
        have hid4 : l4.id = l3.id := congrArg Prod.fst hk4
        have hp4 : l4.google_place_id = l3.google_place_id := congrArg Prod.snd hk4
        rw [← hid4]
        exact hpidu htr l4 hl4 (by rw [hp4, hpe])
      have hrow_mem : (enrich_lead_row env mid l).1 ∈ (enrich_job env job_id st).leads := by
        rw [enrich_job_leads]; exact mem_of_get? hres
      have hidres : ((enrich_job env job_id st).leads.map Lead.id).Nodup := by
        rw [enrich_job_leads, processLeads_map_id]; exact hnd
      have heq : l2 = (enrich_lead_row env mid l).1 :=
        List.inj_on_of_nodup_map hidres hl2 hrow_mem
          (by rw [hid2, enrich_lead_row_id])
      rw [heq]
      exact enrich_lead_row_terminal env mid l hpid_mid hcr
  · exact ⟨by decide, by decide⟩

/-- Witness for C1 at the concrete 10-lead store: the finalized job record. -/
theorem enrich_job_isolates_failures_witness :
    ((enrich_job demoEnv 1 demoStore).jobs.headD noJob).status = "complete"
    ∧ ((enrich_job demoEnv 1 demoStore).jobs.headD noJob).enriched_count = 10 := by
  obtain ⟨h1, h2⟩ := (enrich_job_isolates_failures.1 demoEnv demoStore 1 (by decide)).1
    ((enrich_job demoEnv 1 demoStore).jobs.headD noJob) (by decide) (by decide)
  refine ⟨h1, ?_⟩
  rw [h2]; decide

/-- C5: the pipeline only moves a lead's `enrichment_status` forward along
pending → crawling → {enriched, failed}: under `enrich_job` every lead's
status change satisfies the chain order, and a lead already `enriched` is
left entirely unchanged (never reset to `pending`). -/
theorem enrichment_status_moves_forward :
    ∀ (env : EnrichEnv) (st : LeadStore) (job_id : Nat),
      (st.leads.map Lead.id).Nodup →
      ∀ l ∈ st.leads, ∀ l2 ∈ (enrich_job env job_id st).leads, l2.id = l.id →
        statusChainLe l.enrichment_status l2.enrichment_status
        ∧ (l.enrichment_status = "enriched" → l2 = l) := by
  intro env st job_id hnd l hl l2 hl2 hid2
  obtain ⟨n, hget⟩ := List.get?_of_mem hl
  have hidres : ((enrich_job env job_id st).leads.map Lead.id).Nodup := by
    rw [enrich_job_leads, processLeads_map_id]; exact hnd
  by_cases hmem : l.id ∈ pendingLeadIds st.leads job_id
  · have hpend : l.enrichment_status = "pending" := by
      obtain ⟨l3, hl3, _, hpend3, hid3⟩ := mem_pendingLeadIds.mp hmem
      have h3 : l3 = l := List.inj_on_of_nodup_map hnd hl3 hl hid3
      rw [← h3]; exact hpend3
    obtain ⟨mid, hmidget, hkey, hres⟩ :=
      processLeads_get?_mem env (pendingLeadIds st.leads job_id) st.leads n l hnd
        (pendingLeadIds_nodup job_id hnd) hget hmem hpend
    have hrow_mem : (enrich_lead_row env mid l).1 ∈ (enrich_job env job_id st).leads := by
      rw [enrich_job_leads]; exact mem_of_get? hres
    have heq : l2 = (enrich_lead_row env mid l).1 :=
      List.inj_on_of_nodup_map hidres hl2 hrow_mem (by rw [hid2, enrich_lead_row_id])
    constructor
    · rw [heq, hpend]
      rcases enrich_lead_row_status env mid l with h | h | h | h <;> rw [h] <;>
        simp [statusChainLe, hpend]
    · intro hcontra
      rw [hpend] at hcontra
      exact absurd hcontra (by decide)
  · have hres : (processLeads env (pendingLeadIds st.leads job_id) st.leads).get? n
        = some l := by
      rw [processLeads_get?_untouched env _ st.leads n ?_, hget]
      intro l3 hl3
      rw [hget] at hl3
      injection hl3 with h3
      rw [← h3]
      exact hmem
    have hlmem2 : l ∈ (enrich_job env job_id st).leads := by
      rw [enrich_job_leads]; exact mem_of_get? hres
    have heq : l2 = l := List.inj_on_of_nodup_map hidres hl2 hlmem2 hid2
    rw [heq]
    exact ⟨Or.inl rfl, fun _ => rfl⟩

/-- Witness for C5 at the one-lead store. -/
theorem enrichment_status_moves_forward_witness :
    statusChainLe c4Lead.enrichment_status
      (((enrich_job demoEnvOffline 1 demoStoreOneLead).leads.headD c4Lead).enrichment_status) := by
  have h := enrichment_status_moves_forward demoEnvOffline demoStoreOneLead 1 (by decide)
    c4Lead (by decide) ((enrich_job demoEnvOffline 1 demoStoreOneLead).leads.headD c4Lead)
    (by decide) (by decide)
  exact h.1

/-- C4 counterexample: running enrich_job a second time on a fully processed
one-lead job rewrites the job record: `enriched_count` drops from 1 back to
0, so the job record is not left unchanged. -/
theorem enrich_job_rerun_resets_count :
    ((enrich_job demoEnvOffline 1 demoStoreOneLead).jobs.headD noJob).enriched_count = 1
    ∧ ((enrich_job demoEnvOffline 1 (enrich_job demoEnvOffline 1 demoStoreOneLead)).jobs.headD
        noJob).enriched_count = 0
    ∧ (enrich_job demoEnvOffline 1 (enrich_job demoEnvOffline 1 demoStoreOneLead)).jobs
        ≠ (enrich_job demoEnvOffline 1 demoStoreOneLead).jobs := by
  refine ⟨by decide, by decide, by decide⟩

/-- C4 amended: enrich_lead returns without modifying anything when the
looked-up lead is already `enriched`, and a second enrich_job over a job
with no pending leads leaves every lead record unchanged and the job status
`complete` — but it sets the job's `enriched_count` to 0, the number of
leads processed by that run, rather than leaving the count unchanged. -/
theorem enrich_rerun_skips_enriched :
    (∀ (env : EnrichEnv) (i : Nat) (leads : List Lead) (l : Lead),
        leads.find? (fun x => x.id == i) = some l → l.enrichment_status = "enriched" →
        enrich_lead env i leads = (leads, none))
    ∧ (∀ (env : EnrichEnv) (st : LeadStore) (job_id : Nat),
        (∀ l ∈ st.leads, l.search_job_id = some job_id → l.enrichment_status ≠ "pending") →
        (enrich_job env job_id st).leads = st.leads
          ∧ ∀ j ∈ (enrich_job env job_id st).jobs, j.id = job_id →
              j.status = "complete" ∧ j.enriched_count = 0) := by
  constructor
  · intro env i leads l hfind hst
    unfold enrich_lead
    rw [hfind]
    simp [hst]
  · intro env st job_id hnone
    have hrows : pendingLeadIds st.leads job_id = [] := by
      unfold pendingLeadIds
      have hfil : st.leads.filter (fun l =>
          l.search_job_id == some job_id && l.enrichment_status == "pending") = [] := by
        rw [List.filter_eq_nil]
        intro l hl
        simp only [Bool.and_eq_true, beq_iff_eq, not_and]
        intro hjob
        exact hnone l hl hjob
      rw [hfil]
      rfl
    constructor
    · rw [enrich_job_leads, hrows]
      rfl
    · intro j hj hid
      have h := enrich_job_jobs_complete env job_id st j hj hid
      rw [hrows] at h
      exact ⟨h.1, h.2⟩

/-- Witness for C4's amended statement at concrete stores. -/
theorem enrich_rerun_skips_enriched_witness :
    enrich_lead demoEnvOffline 1 [c4EnrichedLead] = ([c4EnrichedLead], none)
    ∧ (enrich_job demoEnvOffline 1
        { leads := [c4EnrichedLead], jobs := [{ id := 1 }] }).leads = [c4EnrichedLead] := by
  constructor
  · exact enrich_rerun_skips_enriched.1 demoEnvOffline 1 [c4EnrichedLead] c4EnrichedLead
      (by decide) rfl
  · exact (enrich_rerun_skips_enriched.2 demoEnvOffline
      { leads := [c4EnrichedLead], jobs := [{ id := 1 }] } 1 (by decide)).1

lemma mem_clean_emails {raw : List (List Char)} {e : List Char} :
    e ∈ clean_emails raw ↔ ∃ r ∈ raw, keepEmail r = true ∧ e = lowerChars r := by
  unfold clean_emails
  rw [List.mem_insertionSort, List.mem_dedup, List.mem_map]
  constructor
  · rintro ⟨r, hr, rfl⟩
    rw [List.mem_filter] at hr
    exact ⟨r, hr.1, hr.2, rfl⟩
  · rintro ⟨r, hmem, hk, rfl⟩
    exact ⟨r, List.mem_filter.mpr ⟨hmem, hk⟩, rfl⟩

lemma keepEmail_iff {r : List Char} :
    keepEmail r = true ↔ emailDomain r ∉ JUNK_EMAIL_DOMAINS
      ∧ ∀ ext ∈ ASSET_EXTENSIONS, containsSub (emailDomain r) ext = false := by
  unfold keepEmail
  rw [Bool.and_eq_true, Bool.not_eq_true', Bool.not_eq_true']
  constructor
  · rintro ⟨h1, h2⟩
    refine ⟨fun hmem => ?_, fun ext hext => ?_⟩
    · have hc : JUNK_EMAIL_DOMAINS.contains (emailDomain r) = true := List.elem_iff.mpr hmem
      rw [hc] at h1
      exact absurd h1 (by decide)
    · by_contra hcs
      have htrue : containsSub (emailDomain r) ext = true := by
        cases hx : containsSub (emailDomain r) ext
        · exact absurd hx hcs
        · rfl
      have hany : ASSET_EXTENSIONS.any (fun ext => containsSub (emailDomain r) ext) = true :=
        List.any_eq_true.mpr ⟨ext, hext, htrue⟩
      rw [hany] at h2
      exact absurd h2 (by decide)
  · rintro ⟨h1, h2⟩
    constructor
    · cases hx : JUNK_EMAIL_DOMAINS.contains (emailDomain r)
      · rfl
      · exact absurd (List.elem_iff.mp hx) h1
    · cases hx : ASSET_EXTENSIONS.any (fun ext => containsSub (emailDomain r) ext)
      · rfl
      · obtain ⟨ext, hext, hc⟩ := List.any_eq_true.mp hx
        rw [h2 ext hext] at hc
        exact absurd hc (by decide)

lemma clean_emails_nodup (raw : List (List Char)) : (clean_emails raw).Nodup := by
  unfold clean_emails
  exact (List.perm_insertionSort _ _).symm.nodup (List.nodup_dedup _)

/-- C6 counterexample: `_clean_emails` keeps an address whose local part
contains the asset extension `.png`, because the code applies the extension
test to the domain part (`email.split("@")[1]`), not the local part. -/
theorem clean_emails_keeps_asset_local_part :
    clean_emails ["photo.png@company.com".data] = ["photo.png@company.com".data]
    ∧ containsSub (emailLocalPart "photo.png@company.com".data) ".png".data = true :=
  ⟨by decide, by decide⟩

/-- C6 amended: the cleaned list is deduplicated, every element is a
lower-cased input address whose domain part is neither in the junk-domain
denylist nor contains a static-asset extension, and every input passing that
domain-based filter appears (lower-cased) in the output. -/
theorem clean_emails_filters_by_domain :
    ∀ raw : List (List Char),
      (clean_emails raw).Nodup
      ∧ (∀ e ∈ clean_emails raw, ∃ r ∈ raw, e = lowerChars r
            ∧ emailDomain r ∉ JUNK_EMAIL_DOMAINS
            ∧ ∀ ext ∈ ASSET_EXTENSIONS, containsSub (emailDomain r) ext = false)
      ∧ (∀ r ∈ raw, keepEmail r = true → lowerChars r ∈ clean_emails raw) := by
  intro raw
  refine ⟨clean_emails_nodup raw, ?_, ?_⟩
  · intro e he
    obtain ⟨r, hmem, hk, rfl⟩ := mem_clean_emails.mp he
    obtain ⟨h1, h2⟩ := keepEmail_iff.mp hk
    exact ⟨r, hmem, rfl, h1, h2⟩
  · intro r hmem hk
    exact mem_clean_emails.mpr ⟨r, hmem, hk, rfl⟩

/-- Witness for C6's amended statement at a concrete raw set. -/
theorem clean_emails_filters_by_domain_witness :
    (clean_emails demoRawEmails).Nodup
    ∧ lowerChars "Sales@Biz.Example".data ∈ clean_emails demoRawEmails :=
  ⟨(clean_emails_filters_by_domain demoRawEmails).1,
   (clean_emails_filters_by_domain demoRawEmails).2.2 "Sales@Biz.Example".data
     (by decide) (by decide)⟩

/-- C7 counterexample: with no credential and max_results = 5 the mock list
has length 5 — below the claimed lower bound of 10 — for every possible
draw of randint(10, 20), here the draw 10. -/
theorem search_places_mock_small_counterexample :
    (search_places "" mockPlaceAt 10 [] 5).length = 5
    ∧ ¬ (10 ≤ (search_places "" mockPlaceAt 10 [] 5).length) :=
  ⟨by decide, by decide⟩

/-- C7 amended: with no credential the synthetic list has length
min(max_results, r) where r is the randint(10, 20) draw; hence the length is
between min(max_results, 10) and min(max_results, 20) — at least 10 only
when max_results is itself at least 10. -/
theorem search_places_mock_size :
    ∀ (mk : Nat → PlaceResult) (r m : Nat), 10 ≤ r → r ≤ 20 →
      (search_places "" mk r [] m).length = min m r
      ∧ min m 10 ≤ (search_places "" mk r [] m).length
      ∧ (search_places "" mk r [] m).length ≤ min m 20 := by
  intro mk r m h10 h20
  have hlen : (search_places "" mk r [] m).length = min m r := by
    simp [search_places, generate_mock_businesses]
  refine ⟨hlen, ?_, ?_⟩ <;> rw [hlen] <;> omega

/-- Witness for C7's amended statement at a concrete draw. -/
theorem search_places_mock_size_witness :
    (search_places "" mockPlaceAt 12 [] 60).length = min 60 12 :=
  (search_places_mock_size mockPlaceAt 12 60 (by norm_num) (by norm_num)).1

lemma countP_replicate_waiting (n : Nat) :
    List.countP (fun p => p == TaskPhase.working) (List.replicate n TaskPhase.waiting) = 0 := by
  rw [List.countP_eq_zero]
  intro a ha
  rw [(List.mem_replicate.mp ha).2]
  decide

lemma sem_invariant {n : Nat} {s : SemSchedState} (h : SemReachable n s) :
    s.semValue + workingCount s = semaphoreLimit := by
  induction h with
  | init => simp [semInit, workingCount, semaphoreLimit, countP_replicate_waiting]
  | step hr hstep ih =>
    rename_i s2 t2
    cases hstep with
    | acquire i hi hs =>
      obtain ⟨hlt, hget⟩ := List.get?_eq_some.mp hi
      rw [List.get_eq_getElem] at hget
      have hset := List.countP_set (fun p => p == TaskPhase.working) s2.tasks i
        TaskPhase.working hlt
      rw [hget] at hset
      simp only [show (TaskPhase.waiting == TaskPhase.working) = false from rfl,
        show (TaskPhase.working == TaskPhase.working) = true from rfl,
        Bool.false_eq_true, if_false, if_true] at hset
      unfold workingCount at ih ⊢
      dsimp only at ih ⊢
      rw [hset]
      omega
    | release i hi =>
      obtain ⟨hlt, hget⟩ := List.get?_eq_some.mp hi
      rw [List.get_eq_getElem] at hget
      have hset := List.countP_set (fun p => p == TaskPhase.working) s2.tasks i
        TaskPhase.done hlt
      rw [hget] at hset
      simp only [show (TaskPhase.working == TaskPhase.working) = true from rfl,
        show (TaskPhase.done == TaskPhase.working) = false from rfl,
        Bool.false_eq_true, if_false, if_true] at hset
      have hpos : 0 < List.countP (fun p => p == TaskPhase.working) s2.tasks := by
        rw [List.countP_pos]
        refine ⟨s2.tasks[i], List.getElem_mem hlt, ?_⟩
        rw [hget]
        rfl
      unfold workingCount at ih ⊢
      dsimp only at ih ⊢
      rw [hset]
      omega

/-- C8: in the semaphore discipline of enrich_job's worker pool — every
per-lead task acquires the `asyncio.Semaphore(3)` before its crawl and
releases it after — no reachable scheduler state has more than 3 tasks
simultaneously inside the guarded block, for any number of leads. -/
theorem semaphore_bounds_concurrent_crawls :
    ∀ (n : Nat) (s : SemSchedState), SemReachable n s → workingCount s ≤ 3 := by
  intro n s h
  have hinv := sem_invariant h
  have hlim : semaphoreLimit = 3 := rfl
  omega

/-- Witness for C8 at the initial state of a 10-task run. -/
theorem semaphore_bounds_concurrent_crawls_witness :
    workingCount (semInit 10) ≤ 3 :=
  semaphore_bounds_concurrent_crawls 10 (semInit 10) SemReachable.init

/-- C9: the claim's won and lost figures are never produced by the source:
on every call — with or without a search_job_id, over every lead store —
get_stats raises AttributeError while building the won-count query, because
leadgen.py line 170 accesses `Lead.contact_outcome` and models/lead.py
declares no such column.  The code contradicts its own response schema
(leadgen_schemas.StatsResponse requires the won/lost fields) and the
`log_contact` handler that writes `contact_outcome`; the query structure up
to the raise filters only `total` by the job id, as the claim describes. -/
theorem get_stats_always_raises :
    (∀ (leads : List Lead) (search_job_id : Option Nat),
        get_stats leads search_job_id = Except.error contactOutcomeAttributeError)
    ∧ get_stats demoStatsLeads (some 1) = Except.error contactOutcomeAttributeError :=
  ⟨fun _ _ => rfl, rfl⟩
